import Mathlib

/- Verification of the vehicle locomotion / collision-response core
   (src/game/src/game/VehicleConfig.ts and CollisionPhysics.ts).

   The TypeScript code computes with JavaScript numbers and the Babylon.js
   vector/quaternion primitives; we embed it over the real numbers, with the
   Babylon operations (add, subtract, scale, dot, cross, length, normalize,
   quaternion-from-axis-angle, quaternion multiplication, vector rotation by a
   quaternion via the associated matrix) spelled out exactly as Babylon
   implements them.  Babylon's `normalize` leaves the zero vector unchanged,
   and `RotationAxis` normalizes its axis first; both are reproduced here. -/

set_option maxHeartbeats 1600000

noncomputable section

namespace OSD

/-- World-space 3D vector (Babylon.js `Vector3`, embedded over the reals). -/
structure Vector3 where
  x : ℝ
  y : ℝ
  z : ℝ
deriving DecidableEq

namespace Vector3

/-- Babylon `Vector3.Zero()`. -/
def Zero : Vector3 := ⟨0, 0, 0⟩

/-- Babylon `Vector3.Up()`, the world up axis (0,1,0). -/
def Up : Vector3 := ⟨0, 1, 0⟩

/-- Babylon `a.add(b)`: componentwise sum. -/
def add (a b : Vector3) : Vector3 := ⟨a.x + b.x, a.y + b.y, a.z + b.z⟩

/-- Babylon `a.subtract(b)`: componentwise difference. -/
def subtract (a b : Vector3) : Vector3 := ⟨a.x - b.x, a.y - b.y, a.z - b.z⟩

/-- Babylon `v.scale(k)`: multiply every component by the scalar. -/
def scale (v : Vector3) (k : ℝ) : Vector3 := ⟨v.x * k, v.y * k, v.z * k⟩

/-- Babylon `Vector3.Dot(a, b)`. -/
def dot (a b : Vector3) : ℝ := a.x * b.x + a.y * b.y + a.z * b.z

/-- Babylon `Vector3.Cross(a, b)`. -/
def cross (a b : Vector3) : Vector3 :=
  ⟨a.y * b.z - a.z * b.y, a.z * b.x - a.x * b.z, a.x * b.y - a.y * b.x⟩

/-- Babylon `v.lengthSquared()`. -/
def lengthSquared (v : Vector3) : ℝ := v.x * v.x + v.y * v.y + v.z * v.z

/-- Babylon `v.length()`: Euclidean norm. -/
def length (v : Vector3) : ℝ := Real.sqrt v.lengthSquared

/-- Babylon `v.normalize()`: scales to unit length; the zero vector is left
unchanged (Babylon's `normalizeFromLength` returns the vector as-is when the
length is zero). -/
def normalize (v : Vector3) : Vector3 :=
  if v.length = 0 then v else v.scale (1 / v.length)

/-- Babylon `Vector3.Distance(a, b)`: the norm of the componentwise
difference (symmetric in its arguments). -/
def Distance (a b : Vector3) : ℝ := (a.subtract b).length

end Vector3

/-- Babylon.js `Quaternion`, embedded over the reals. -/
structure Quaternion where
  x : ℝ
  y : ℝ
  z : ℝ
  w : ℝ
deriving DecidableEq

namespace Quaternion

/-- Babylon `Quaternion.Identity()`. -/
def Identity : Quaternion := ⟨0, 0, 0, 1⟩

/-- Babylon `q.multiply(p)` (Babylon's Hamilton-product convention). -/
def multiply (q p : Quaternion) : Quaternion :=
  ⟨q.x * p.w + q.y * p.z - q.z * p.y + q.w * p.x,
   -q.x * p.z + q.y * p.w + q.z * p.x + q.w * p.y,
   q.x * p.y - q.y * p.x + q.z * p.w + q.w * p.z,
   -q.x * p.x - q.y * p.y - q.z * p.z + q.w * p.w⟩

/-- Babylon `Quaternion.RotationAxis(axis, angle)`: normalizes the axis, then
builds the axis-angle quaternion.  A zero axis stays zero under Babylon's
`normalize`, producing the quaternion `(0,0,0,cos(angle/2))`. -/
def RotationAxis (axis : Vector3) (angle : ℝ) : Quaternion :=
  let a := axis.normalize
  ⟨a.x * Real.sin (angle / 2), a.y * Real.sin (angle / 2),
   a.z * Real.sin (angle / 2), Real.cos (angle / 2)⟩

end Quaternion

namespace Vector3

/-- Babylon `v.rotateByQuaternionToRef(q, ·)`: converts the quaternion to its
rotation matrix (the unit-quaternion formula) and transforms the vector by it
(`Matrix.FromQuaternionToRef` followed by `TransformCoordinates`). -/
def rotateByQuaternion (v : Vector3) (q : Quaternion) : Vector3 :=
  ⟨v.x * (1 - 2 * (q.y * q.y + q.z * q.z)) + v.y * (2 * (q.x * q.y - q.z * q.w))
     + v.z * (2 * (q.z * q.x + q.y * q.w)),
   v.x * (2 * (q.x * q.y + q.z * q.w)) + v.y * (1 - 2 * (q.z * q.z + q.x * q.x))
     + v.z * (2 * (q.y * q.z - q.x * q.w)),
   v.x * (2 * (q.z * q.x - q.y * q.w)) + v.y * (2 * (q.y * q.z + q.x * q.w))
     + v.z * (1 - 2 * (q.y * q.y + q.x * q.x))⟩

end Vector3

/-- A body participating in a collision (CollisionPhysics.ts `PhysicsBody`). -/
structure PhysicsBody where
  velocity : Vector3
  mass : ℝ
  position : Vector3

/-- Result of `calculateDynamicCollision` (CollisionPhysics.ts
`CollisionResult`).  `shouldSeparate` is the proposition the boolean
`velocityAlongNormal > 0` denotes. -/
structure CollisionResult where
  body1NewVelocity : Vector3
  body2NewVelocity : Vector3
  impulse : Vector3
  shouldSeparate : Prop

/-- Configuration state of `CollisionPhysics` (the four scalars fixed by its
constructor). -/
structure CollisionPhysics where
  restitution : ℝ
  staticObjectDamping : ℝ
  momentumFriction : ℝ
  momentumThreshold : ℝ

namespace CollisionPhysics

/-- `new CollisionPhysics()` with no config: the constructor defaults
0.3 / 0.4 / 0.4 / 0.05. -/
def defaultConfig : CollisionPhysics :=
  { restitution := 0.3
    staticObjectDamping := 0.4
    momentumFriction := 0.4
    momentumThreshold := 0.05 }

/-- CollisionPhysics.ts `calculateStaticCollision(body, collisionNormal)`:
reflect the body's momentum across the normal, then damp. -/
def calculateStaticCollision (cp : CollisionPhysics) (body : PhysicsBody)
    (collisionNormal : Vector3) : Vector3 :=
  let v := body.velocity
  let currentMomentum := v.scale body.mass
  let velocityAlongNormal := Vector3.dot v collisionNormal
  let reflectedMomentum :=
    currentMomentum.subtract (collisionNormal.scale (2 * velocityAlongNormal * body.mass))
  reflectedMomentum.scale cp.staticObjectDamping

/-- CollisionPhysics.ts `calculateDynamicCollision(body1, body2, collisionNormal)`:
impulse-based resolution along the normal with coefficient of restitution. -/
def calculateDynamicCollision (cp : CollisionPhysics) (body1 body2 : PhysicsBody)
    (collisionNormal : Vector3) : CollisionResult :=
  let v1 := body1.velocity
  let v2 := body2.velocity
  let m1 := body1.mass
  let m2 := body2.mass
  let relativeVelocity := v1.subtract v2
  let velocityAlongNormal := Vector3.dot relativeVelocity collisionNormal
  let isApproaching := velocityAlongNormal > 0
  let e := cp.restitution
  let j := (-(1 + e) * velocityAlongNormal) / (1 / m1 + 1 / m2)
  let impulse := collisionNormal.scale j
  { body1NewVelocity := v1.add (impulse.scale (1 / m1))
    body2NewVelocity := v2.add (impulse.scale (-1 / m2))
    impulse := impulse
    shouldSeparate := isApproaching }

/-- CollisionPhysics.ts `applyMomentumFriction(momentum, deltaTime)`: linear
drag, then snap to zero below the threshold. -/
def applyMomentumFriction (cp : CollisionPhysics) (momentum : Vector3)
    (deltaTime : ℝ) : Vector3 :=
  let dragFactor := 1 - cp.momentumFriction * deltaTime
  let newMomentum := momentum.scale (max 0 dragFactor)
  if newMomentum.length < cp.momentumThreshold then Vector3.Zero else newMomentum

/-- CollisionPhysics.ts `momentumToVelocity(momentum, mass)`: momentum divided
by mass, with an explicit zero-mass guard. -/
def momentumToVelocity (cp : CollisionPhysics) (momentum : Vector3) (mass : ℝ) :
    Vector3 :=
  if mass = 0 then Vector3.Zero else momentum.scale (1 / mass)

end CollisionPhysics

/-- VehicleConfig.ts `SurfaceType`. -/
inductive SurfaceType where
  | planet : SurfaceType
  | ground : SurfaceType
deriving DecidableEq

/-- The mutable state of a `Vehicle` (VehicleConfig.ts), together with the
constructor-time physics configuration (`maxSpeed`, `acceleration`,
`friction`, `maxSteerAngle`, `heightOffset`, `mass`) and the last values
passed to `setInput`.  The vehicle's `collisionPhysics` member is always
`new CollisionPhysics()` (constructor line), i.e. `defaultConfig`.
`rotationQuaternion` is the root node's orientation quaternion. -/
structure VehicleState where
  position : Vector3
  rotationQuaternion : Quaternion
  speed : ℝ
  velocity : Vector3
  momentum : Vector3
  mass : ℝ
  maxSpeed : ℝ
  acceleration : ℝ
  friction : ℝ
  steerAngle : ℝ
  maxSteerAngle : ℝ
  inputAccelerate : ℝ
  inputSteer : ℝ
  inputHandbrake : Bool
  surfaceType : SurfaceType
  planetRadius : ℝ
  planetCenter : Vector3
  groundHeight : ℝ
  heightOffset : ℝ

namespace VehicleState

/-- Vehicle `setInput(accelerate, steer, handbrake)`. -/
def setInput (accelerate steer : ℝ) (handbrake : Bool) (s : VehicleState) :
    VehicleState :=
  { s with inputAccelerate := accelerate, inputSteer := steer,
           inputHandbrake := handbrake }

/-- Vehicle `stopMovement()`. -/
def stopMovement (s : VehicleState) : VehicleState := { s with speed := 0 }

/-- Vehicle `setVelocity(velocity)`: stores the velocity and sets `speed` to
its magnitude. -/
def setVelocity (v : Vector3) (s : VehicleState) : VehicleState :=
  { s with velocity := v, speed := v.length }

/-- Vehicle `applyCollisionImpulse(impulse)`: adds the impulse to the momentum
and zeroes the driving speed. -/
def applyCollisionImpulse (impulse : Vector3) (s : VehicleState) : VehicleState :=
  { s with momentum := s.momentum.add impulse, speed := 0 }

/-- Vehicle `updateMovement(deltaTime)`: handbrake braking or
accelerate-clamp-friction, then the speed-dependent steering angle.
JavaScript `Math.sign` agrees with `Real.sign` on the reals, and
`Math.pow(friction, deltaTime)` is real exponentiation `rpow`. -/
def updateMovement (deltaTime : ℝ) (s : VehicleState) : VehicleState :=
  let speed1 :=
    if s.inputHandbrake then
      let brakingForce : ℝ := 30
      let speedSign := Real.sign s.speed
      let brakingAmount := brakingForce * deltaTime
      if |s.speed| ≤ brakingAmount then 0 else s.speed - speedSign * brakingAmount
    else
      let sa := s.speed + s.inputAccelerate * s.acceleration * deltaTime
      let sc := max (-s.maxSpeed * 0.5) (min s.maxSpeed sa)
      sc * s.friction ^ deltaTime
  let absSpeed := |speed1|
  let steerAngle1 :=
    if absSpeed < 0.5 then 0 else s.inputSteer * s.maxSteerAngle * speed1
  { s with speed := speed1, steerAngle := steerAngle1 }

/-- Vehicle `updateMomentum(deltaTime)`: the momentum after this frame's
friction decay (the first step of both surface integrators). -/
def frameMomentum (deltaTime : ℝ) (s : VehicleState) : Vector3 :=
  CollisionPhysics.defaultConfig.applyMomentumFriction s.momentum deltaTime

/-- The total velocity both integrators compute for the frame: world forward
scaled by the driving speed, plus the decayed momentum converted to a
velocity. -/
def frameVelocity (deltaTime : ℝ) (s : VehicleState) : Vector3 :=
  let forward := Vector3.rotateByQuaternion ⟨0, 0, 1⟩ s.rotationQuaternion
  let drivingVelocity := forward.scale s.speed
  let momentumVelocity :=
    CollisionPhysics.defaultConfig.momentumToVelocity (s.frameMomentum deltaTime) s.mass
  drivingVelocity.add momentumVelocity

/-- Vehicle `updatePositionGround(deltaTime)`: momentum decay, combined
velocity, the `< 0.1` early return (which returns before the translation, the
ground-height clamp, and the steering rotation), otherwise XZ translation,
height clamp, and the steering rotation pre-multiplied onto the current
orientation. -/
def updatePositionGround (deltaTime : ℝ) (s : VehicleState) : VehicleState :=
  let momentum1 := s.frameMomentum deltaTime
  let currentRotationQ := s.rotationQuaternion
  let velocity1 := s.frameVelocity deltaTime
  if velocity1.length < 0.1 then
    { s with momentum := momentum1, velocity := Vector3.Zero }
  else
    let position1 := s.position.add (velocity1.scale deltaTime)
    let position2 : Vector3 := ⟨position1.x, s.groundHeight + s.heightOffset, position1.z⟩
    let steeringQ := Quaternion.RotationAxis Vector3.Up (s.steerAngle * deltaTime)
    { s with momentum := momentum1, velocity := velocity1, position := position2,
             rotationQuaternion := steeringQ.multiply currentRotationQ }

/-- Vehicle `createAlignmentRotation(currentRotation, surfaceNormal)`:
arcsine-based incremental alignment of the local up axis with the surface
normal; a near-zero cross product returns the orientation unchanged. -/
def createAlignmentRotation (currentRotationQ : Quaternion)
    (surfaceNormal : Vector3) : Quaternion :=
  let currentUp := Vector3.rotateByQuaternion ⟨0, 1, 0⟩ currentRotationQ
  let axis := Vector3.cross currentUp surfaceNormal
  let axisLength := axis.length
  if axisLength < 0.0001 then currentRotationQ
  else
    let angle := Real.arcsin (min 1 axisLength)
    (Quaternion.RotationAxis axis.normalize angle).multiply currentRotationQ

/-- Vehicle `updatePositionPlanet(deltaTime)`: momentum decay, combined
velocity, the `< 0.1` early return, otherwise tangent-plane projection,
steering about the vehicle's world up, arc-length motion around the planet
center, the radius re-snap when drift exceeds 1e-3, and surface alignment. -/
def updatePositionPlanet (deltaTime : ℝ) (s : VehicleState) : VehicleState :=
  let momentum1 := s.frameMomentum deltaTime
  let currentRotationQ := s.rotationQuaternion
  let surfaceNormal := (s.position.subtract s.planetCenter).normalize
  let forward := Vector3.rotateByQuaternion ⟨0, 0, 1⟩ currentRotationQ
  let velocity1 := s.frameVelocity deltaTime
  if velocity1.length < 0.1 then
    { s with momentum := momentum1, velocity := Vector3.Zero }
  else
    let dotProduct := Vector3.dot forward surfaceNormal
    let tangentForward := (forward.subtract (surfaceNormal.scale dotProduct)).normalize
    let worldUp := Vector3.rotateByQuaternion ⟨0, 1, 0⟩ currentRotationQ
    let steeringQ := Quaternion.RotationAxis worldUp (s.steerAngle * deltaTime)
    let newRotation := steeringQ.multiply currentRotationQ
    let angularDisplacement := s.speed * deltaTime / s.planetRadius
    let axis := (Vector3.cross surfaceNormal tangentForward).normalize
    let movementQ := Quaternion.RotationAxis axis angularDisplacement
    let relativePosition := s.position.subtract s.planetCenter
    let newRelativePosition := relativePosition.rotateByQuaternion movementQ
    let position1 := s.planetCenter.add newRelativePosition
    let targetDistance := s.planetRadius + s.heightOffset
    let currentDistance := Vector3.Distance position1 s.planetCenter
    let position2 :=
      if |currentDistance - targetDistance| > 0.001 then
        s.planetCenter.add (((position1.subtract s.planetCenter).normalize).scale targetDistance)
      else position1
    let newSurfaceNormal := (position2.subtract s.planetCenter).normalize
    let alignmentQ := createAlignmentRotation newRotation newSurfaceNormal
    { s with momentum := momentum1, velocity := velocity1, position := position2,
             rotationQuaternion := alignmentQ }

/-- Vehicle `updatePosition(deltaTime)`: dispatch on the detected surface. -/
def updatePosition (deltaTime : ℝ) (s : VehicleState) : VehicleState :=
  match s.surfaceType with
  | SurfaceType.planet => s.updatePositionPlanet deltaTime
  | SurfaceType.ground => s.updatePositionGround deltaTime

/-- Vehicle `update(deltaTime)`: movement integration then position
integration. -/
def update (deltaTime : ℝ) (s : VehicleState) : VehicleState :=
  updatePosition deltaTime (updateMovement deltaTime s)

end VehicleState

/-- One frame of external driving: the inputs passed to `setInput` and the
`deltaTime` of the following `update` call. -/
structure FrameInput where
  accelerate : ℝ
  steer : ℝ
  handbrake : Bool
  deltaTime : ℝ

/-- Run one frame: `setInput` followed by `update(deltaTime)`. -/
def applyFrame (s : VehicleState) (f : FrameInput) : VehicleState :=
  VehicleState.update f.deltaTime
    (VehicleState.setInput f.accelerate f.steer f.handbrake s)

/-- Run a finite sequence of frames. -/
def runFrames (frames : List FrameInput) (s : VehicleState) : VehicleState :=
  frames.foldl applyFrame s

/-- A concrete vehicle for instantiating the theorems: at rest on flat
ground, maxSpeed 1, friction 1/2, mass 1000, identity orientation. -/
def sampleState : VehicleState :=
  { position := ⟨0, 0, 0⟩
    rotationQuaternion := Quaternion.Identity
    speed := 0
    velocity := Vector3.Zero
    momentum := Vector3.Zero
    mass := 1000
    maxSpeed := 1
    acceleration := 0
    friction := 1 / 2
    steerAngle := 0
    maxSteerAngle := 1
    inputAccelerate := 0
    inputSteer := 0
    inputHandbrake := false
    surfaceType := SurfaceType.ground
    planetRadius := 1
    planetCenter := ⟨0, 0, 0⟩
    groundHeight := 0
    heightOffset := 0 }

/-- A concrete vehicle resting on a unit planet at position (1,0,0): its
distance to the planet center equals planetRadius + heightOffset exactly. -/
def samplePlanetState : VehicleState :=
  { sampleState with
    position := ⟨1, 0, 0⟩
    surfaceType := SurfaceType.planet }

/-- The planet-mode ride-height invariant of C1: the vehicle's distance to the
planet center differs from planetRadius + heightOffset by less than 1e-3. -/
def planetInv (s : VehicleState) : Prop :=
  |Vector3.Distance s.position s.planetCenter -
    (s.planetRadius + s.heightOffset)| < 0.001

/-- A concrete ground-mode vehicle for C4: handbrake braking leaves speed 0.5
(so the steering angle is 0.5), while the decayed collision momentum exactly
cancels the driving velocity, making the frame's total velocity zero. -/
def c4State : VehicleState :=
  { sampleState with
    speed := 2
    inputHandbrake := true
    inputSteer := 1
    momentum := ⟨0, 0, -(25000 / 49)⟩ }

namespace Vector3

lemma lengthSquared_nonneg (v : Vector3) : 0 ≤ v.lengthSquared := by
  have hx := mul_self_nonneg v.x
  have hy := mul_self_nonneg v.y
  have hz := mul_self_nonneg v.z
  unfold lengthSquared
  linarith

lemma length_nonneg (v : Vector3) : 0 ≤ v.length := Real.sqrt_nonneg _

lemma length_zero : (Zero : Vector3).length = 0 := by
  simp [length, lengthSquared, Zero]

lemma eq_zero_of_length_eq_zero {v : Vector3} (h : v.length = 0) : v = Zero := by
  have hsq : v.lengthSquared ≤ 0 := Real.sqrt_eq_zero'.mp h
  have hx := mul_self_nonneg v.x
  have hy := mul_self_nonneg v.y
  have hz := mul_self_nonneg v.z
  have hsq0 : v.lengthSquared = 0 := le_antisymm hsq (lengthSquared_nonneg v)
  unfold lengthSquared at hsq0
  obtain ⟨a, b, c⟩ := v
  simp only at hsq0 hx hy hz
  have ha : a = 0 := by
    have : a * a = 0 := le_antisymm (by linarith) hx
    exact mul_self_eq_zero.mp this
  have hb : b = 0 := by
    have : b * b = 0 := le_antisymm (by linarith) hy
    exact mul_self_eq_zero.mp this
  have hc : c = 0 := by
    have : c * c = 0 := le_antisymm (by linarith) hz
    exact mul_self_eq_zero.mp this
  simp [Zero, ha, hb, hc]

lemma length_pos_of_ne_zero {v : Vector3} (h : v ≠ Zero) : 0 < v.length := by
  rcases lt_or_eq_of_le (length_nonneg v) with hlt | heq
  · exact hlt
  · exact absurd (eq_zero_of_length_eq_zero heq.symm) h

lemma lengthSquared_scale (v : Vector3) (k : ℝ) :
    (v.scale k).lengthSquared = k ^ 2 * v.lengthSquared := by
  simp only [scale, lengthSquared]
  ring

lemma length_scale (v : Vector3) (k : ℝ) : (v.scale k).length = |k| * v.length := by
  unfold length
  rw [lengthSquared_scale, Real.sqrt_mul (sq_nonneg k), Real.sqrt_sq_eq_abs]

lemma scale_scale (v : Vector3) (a b : ℝ) : (v.scale a).scale b = v.scale (a * b) := by
  simp only [scale, mk.injEq]
  refine ⟨by ring, by ring, by ring⟩

lemma zero_scale (k : ℝ) : (Zero : Vector3).scale k = Zero := by
  simp [Zero, scale]

lemma lengthSquared_normalize {v : Vector3} (h : v.length ≠ 0) :
    v.normalize.lengthSquared = 1 := by
  have hsqpos : 0 < v.lengthSquared := by
    rcases lt_or_eq_of_le (lengthSquared_nonneg v) with hlt | heq
    · exact hlt
    · exact absurd (by unfold length; rw [← heq, Real.sqrt_zero]) h
  have hlen : v.length ^ 2 = v.lengthSquared := Real.sq_sqrt (lengthSquared_nonneg v)
  rw [normalize, if_neg h, lengthSquared_scale]
  rw [div_pow, one_pow, hlen]
  field_simp

/-- Rotating by a unit quaternion preserves the squared length: the rotation
matrix built by the unit-quaternion formula is orthogonal on the unit sphere. -/
lemma rotate_lengthSquared_of_unit (v : Vector3) (q : Quaternion)
    (hq : q.x * q.x + q.y * q.y + q.z * q.z + q.w * q.w = 1) :
    (v.rotateByQuaternion q).lengthSquared = v.lengthSquared := by
  simp only [rotateByQuaternion, lengthSquared]
  linear_combination
    (2 * (q.x * q.x + q.y * q.y + q.z * q.z + q.w * q.w) *
        (v.x * v.x + v.y * v.y + v.z * v.z) -
      2 * ((q.w * q.w + q.x * q.x - q.y * q.y - q.z * q.z) * (v.x * v.x) +
        (q.w * q.w + q.y * q.y - q.z * q.z - q.x * q.x) * (v.y * v.y) +
        (q.w * q.w + q.z * q.z - q.y * q.y - q.x * q.x) * (v.z * v.z) +
        4 * q.x * q.y * v.x * v.y + 4 * q.z * q.x * v.x * v.z +
        4 * q.y * q.z * v.y * v.z)) * hq

/-- Rotating by an axis-angle quaternion never changes a vector's squared
length: the axis is normalized first, and a degenerate zero axis yields the
identity transform. -/
lemma rotate_rotationAxis_lengthSquared (v axis : Vector3) (angle : ℝ) :
    (v.rotateByQuaternion (Quaternion.RotationAxis axis angle)).lengthSquared =
      v.lengthSquared := by
  by_cases h : axis.length = 0
  · have haxis : axis = Zero := eq_zero_of_length_eq_zero h
    have hnorm : axis.normalize = Zero := by
      rw [haxis, normalize, if_pos length_zero]
    simp only [Quaternion.RotationAxis, hnorm, Zero, rotateByQuaternion, lengthSquared]
    ring
  · apply rotate_lengthSquared_of_unit
    have hn : axis.normalize.lengthSquared = 1 := lengthSquared_normalize h
    simp only [Quaternion.RotationAxis]
    have hsc := Real.sin_sq_add_cos_sq (angle / 2)
    unfold lengthSquared at hn
    linear_combination (Real.sin (angle / 2) * Real.sin (angle / 2)) * hn + hsc

lemma rotate_rotationAxis_length (v axis : Vector3) (angle : ℝ) :
    (v.rotateByQuaternion (Quaternion.RotationAxis axis angle)).length = v.length := by
  unfold length
  rw [rotate_rotationAxis_lengthSquared]

lemma length_sub_comm (a b : Vector3) : (a.subtract b).length = (b.subtract a).length := by
  unfold length
  congr 1
  simp only [subtract, lengthSquared]
  ring

/-- Helper for concrete evaluations: the length of a vector lying on the
x axis with a nonnegative coordinate. -/
lemma length_axis_x (c : ℝ) (h : 0 ≤ c) : (Vector3.mk c 0 0).length = c := by
  show Real.sqrt (c * c + 0 * 0 + 0 * 0) = c
  rw [show c * c + 0 * 0 + 0 * 0 = c * c by ring, Real.sqrt_mul_self h]

lemma scale_one (v : Vector3) : v.scale 1 = v := by
  simp [scale]

lemma add_subtract_cancel (a w : Vector3) : (a.add w).subtract a = w := by
  obtain ⟨wx, wy, wz⟩ := w
  simp only [add, subtract, mk.injEq]
  refine ⟨by ring, by ring, by ring⟩

lemma length_up : (Up : Vector3).length = 1 := by
  show Real.sqrt (0 * 0 + 1 * 1 + 0 * 0) = 1
  rw [show (0:ℝ) * 0 + 1 * 1 + 0 * 0 = 1 by ring, Real.sqrt_one]

lemma normalize_up : (Up : Vector3).normalize = Up := by
  rw [normalize, if_neg (by rw [length_up]; norm_num), length_up]
  rw [show (1:ℝ) / 1 = 1 by norm_num, scale_one]

/-- Helper for concrete evaluations: the length of a vector lying on the
z axis with a nonpositive coordinate. -/
lemma length_axis_z_neg (c : ℝ) (h : c ≤ 0) : (Vector3.mk 0 0 c).length = -c := by
  show Real.sqrt (0 * 0 + 0 * 0 + c * c) = -c
  rw [show 0 * 0 + 0 * 0 + c * c = -c * -c by ring,
    Real.sqrt_mul_self (by linarith : (0:ℝ) ≤ -c)]

end Vector3

/-- C2: for masses m1, m2 > 0 and a unit normal n from body1 toward body2,
`calculateDynamicCollision` returns `v1 + j·n/m1` and `v2 − j·n/m2` with
`j = −(1+e)·((v1−v2)·n) / (1/m1 + 1/m2)`, and `shouldSeparate` holds exactly
when `(v1−v2)·n > 0`. -/
theorem c2_dynamic_collision_formula (cp : CollisionPhysics)
    (body1 body2 : PhysicsBody) (n : Vector3)
    (hm1 : 0 < body1.mass) (hm2 : 0 < body2.mass) (hn : n.length = 1) :
    (cp.calculateDynamicCollision body1 body2 n).body1NewVelocity =
      body1.velocity.add
        (n.scale ((-(1 + cp.restitution) *
            Vector3.dot (body1.velocity.subtract body2.velocity) n /
            (1 / body1.mass + 1 / body2.mass)) / body1.mass)) ∧
    (cp.calculateDynamicCollision body1 body2 n).body2NewVelocity =
      body2.velocity.subtract
        (n.scale ((-(1 + cp.restitution) *
            Vector3.dot (body1.velocity.subtract body2.velocity) n /
            (1 / body1.mass + 1 / body2.mass)) / body2.mass)) ∧
    ((cp.calculateDynamicCollision body1 body2 n).shouldSeparate ↔
      Vector3.dot (body1.velocity.subtract body2.velocity) n > 0) := by
  refine ⟨?_, ?_, Iff.rfl⟩
  · simp only [CollisionPhysics.calculateDynamicCollision, Vector3.add,
      Vector3.scale, Vector3.mk.injEq]
    refine ⟨by ring, by ring, by ring⟩
  · simp only [CollisionPhysics.calculateDynamicCollision, Vector3.add,
      Vector3.subtract, Vector3.scale, Vector3.mk.injEq]
    refine ⟨by ring, by ring, by ring⟩

/-- Witness for C2 at bodies of mass 1 with velocities (1,0,0) and (0,0,0)
and normal (1,0,0). -/
theorem c2_dynamic_collision_formula_witness :
    ((CollisionPhysics.defaultConfig.calculateDynamicCollision
        ⟨⟨1, 0, 0⟩, 1, ⟨0, 0, 0⟩⟩ ⟨⟨0, 0, 0⟩, 1, ⟨1, 0, 0⟩⟩
        ⟨1, 0, 0⟩).shouldSeparate ↔
      Vector3.dot ((Vector3.mk 1 0 0).subtract ⟨0, 0, 0⟩) ⟨1, 0, 0⟩ > 0) :=
  (c2_dynamic_collision_formula CollisionPhysics.defaultConfig
    ⟨⟨1, 0, 0⟩, 1, ⟨0, 0, 0⟩⟩ ⟨⟨0, 0, 0⟩, 1, ⟨1, 0, 0⟩⟩ ⟨1, 0, 0⟩
    (by norm_num) (by norm_num)
    (Vector3.length_axis_x 1 (by norm_num))).2.2

/-- C5: `applyMomentumFriction` scales the momentum by `max(0, 1 − friction·dt)`
when the scaled vector's magnitude is at least the threshold, returns the zero
vector otherwise, and in particular maps (100,0,0) at dt = 1 with the default
friction 0.4 to (60,0,0). -/
theorem c5_momentum_friction (cp : CollisionPhysics) (m : Vector3) (dt : ℝ) :
    (cp.momentumThreshold ≤ (m.scale (max 0 (1 - cp.momentumFriction * dt))).length →
      cp.applyMomentumFriction m dt = m.scale (max 0 (1 - cp.momentumFriction * dt))) ∧
    ((m.scale (max 0 (1 - cp.momentumFriction * dt))).length < cp.momentumThreshold →
      cp.applyMomentumFriction m dt = Vector3.Zero) ∧
    CollisionPhysics.defaultConfig.applyMomentumFriction ⟨100, 0, 0⟩ 1 = ⟨60, 0, 0⟩ := by
  refine ⟨?_, ?_, ?_⟩
  · intro h
    simp only [CollisionPhysics.applyMomentumFriction]
    rw [if_neg (not_lt.mpr h)]
  · intro h
    simp only [CollisionPhysics.applyMomentumFriction]
    rw [if_pos h]
  · simp only [CollisionPhysics.applyMomentumFriction, CollisionPhysics.defaultConfig]
    have hmax : max (0:ℝ) (1 - 0.4 * 1) = 0.6 := by norm_num
    have hscale : (Vector3.mk 100 0 0).scale (max (0:ℝ) (1 - 0.4 * 1)) =
        Vector3.mk 60 0 0 := by
      rw [hmax]; simp only [Vector3.scale, Vector3.mk.injEq]; norm_num
    rw [hscale, if_neg]
    rw [Vector3.length_axis_x 60 (by norm_num)]
    norm_num

/-- Witness for C5's conditional part at the default configuration,
m = (100,0,0), dt = 1: the scaled magnitude 60 is at least the threshold
0.05, so the result is the scaled vector. -/
theorem c5_momentum_friction_witness :
    CollisionPhysics.defaultConfig.applyMomentumFriction ⟨100, 0, 0⟩ 1 =
      (Vector3.mk 100 0 0).scale
        (max 0 (1 - CollisionPhysics.defaultConfig.momentumFriction * 1)) :=
  (c5_momentum_friction CollisionPhysics.defaultConfig ⟨100, 0, 0⟩ 1).1 (by
    show (0.05 : ℝ) ≤ _
    have hmax : max (0:ℝ) (1 - CollisionPhysics.defaultConfig.momentumFriction * 1)
        = 0.6 := by norm_num [CollisionPhysics.defaultConfig]
    rw [hmax, show (Vector3.mk 100 0 0).scale 0.6 = Vector3.mk 60 0 0 from by
      simp only [Vector3.scale, Vector3.mk.injEq]; norm_num]
    rw [Vector3.length_axis_x 60 (by norm_num)]
    norm_num)

/-- C8: `calculateStaticCollision` reflects the body's momentum across the
unit normal and damps it, `(mass·v − 2·mass·(v·n)·n)·staticObjectDamping`; at
the default configuration with velocity (1,0,0), mass 1000 and normal (1,0,0)
the returned momentum's x component is −400. -/
theorem c8_static_collision_formula (cp : CollisionPhysics) (body : PhysicsBody)
    (n : Vector3) (hn : n.length = 1) :
    cp.calculateStaticCollision body n =
      ((body.velocity.scale body.mass).subtract
        (n.scale (2 * body.mass * Vector3.dot body.velocity n))).scale
        cp.staticObjectDamping ∧
    (CollisionPhysics.defaultConfig.calculateStaticCollision
      ⟨⟨1, 0, 0⟩, 1000, ⟨0, 0, 0⟩⟩ ⟨1, 0, 0⟩).x = -400 := by
  constructor
  · simp only [CollisionPhysics.calculateStaticCollision, Vector3.subtract,
      Vector3.scale, Vector3.mk.injEq]
    refine ⟨by ring, by ring, by ring⟩
  · simp only [CollisionPhysics.calculateStaticCollision, CollisionPhysics.defaultConfig,
      Vector3.subtract, Vector3.scale, Vector3.dot]
    norm_num

/-- Witness for C8 at the default configuration, velocity (1,0,0), mass 1000,
normal (1,0,0). -/
theorem c8_static_collision_formula_witness :
    CollisionPhysics.defaultConfig.calculateStaticCollision
        ⟨⟨1, 0, 0⟩, 1000, ⟨0, 0, 0⟩⟩ ⟨1, 0, 0⟩ =
      (((Vector3.mk 1 0 0).scale 1000).subtract
        ((Vector3.mk 1 0 0).scale
          (2 * 1000 * Vector3.dot ⟨1, 0, 0⟩ ⟨1, 0, 0⟩))).scale
        CollisionPhysics.defaultConfig.staticObjectDamping :=
  (c8_static_collision_formula CollisionPhysics.defaultConfig
    ⟨⟨1, 0, 0⟩, 1000, ⟨0, 0, 0⟩⟩ ⟨1, 0, 0⟩
    (Vector3.length_axis_x 1 (by norm_num))).1

/-- C10: `momentumToVelocity` divides the momentum by a nonzero mass and
returns the zero vector at mass 0, totally (no failure). -/
theorem c10_momentum_to_velocity (cp : CollisionPhysics) (m : Vector3) (mass : ℝ) :
    (mass ≠ 0 → cp.momentumToVelocity m mass = m.scale (1 / mass)) ∧
    cp.momentumToVelocity m 0 = Vector3.Zero := by
  constructor
  · intro h
    rw [CollisionPhysics.momentumToVelocity, if_neg h]
  · rw [CollisionPhysics.momentumToVelocity, if_pos rfl]

/-- Witness for C10 at momentum (4,0,0) and mass 2. -/
theorem c10_momentum_to_velocity_witness :
    CollisionPhysics.defaultConfig.momentumToVelocity ⟨4, 0, 0⟩ 2 =
      (Vector3.mk 4 0 0).scale (1 / 2) :=
  (c10_momentum_to_velocity CollisionPhysics.defaultConfig ⟨4, 0, 0⟩ 2).1
    (by norm_num)

/-- Friction applied to the zero momentum returns the zero momentum: the
scaled vector is zero, and both branches of the threshold check return it. -/
lemma applyMomentumFriction_zero (cp : CollisionPhysics) (dt : ℝ) :
    cp.applyMomentumFriction Vector3.Zero dt = Vector3.Zero := by
  simp only [CollisionPhysics.applyMomentumFriction, Vector3.zero_scale]
  split <;> rfl

/-- One friction application either snaps to zero or scales the momentum by
`max 0 (1 − friction·dt)`. -/
lemma applyMomentumFriction_cases (cp : CollisionPhysics) (m : Vector3) (dt : ℝ) :
    cp.applyMomentumFriction m dt = Vector3.Zero ∨
      cp.applyMomentumFriction m dt =
        m.scale (max 0 (1 - cp.momentumFriction * dt)) := by
  simp only [CollisionPhysics.applyMomentumFriction]
  split
  · exact Or.inl rfl
  · exact Or.inr rfl

/-- C6: with fixed dt > 0, positive friction, and the (positive) configured
threshold, each friction application on a nonzero momentum strictly shrinks
its magnitude, the zero momentum is a fixed point, and iteration reaches the
exact zero vector in finitely many steps (the snap). -/
theorem c6_momentum_decay_to_zero (cp : CollisionPhysics) (dt : ℝ)
    (hf : 0 < cp.momentumFriction) (hdt : 0 < dt)
    (hthr : 0 < cp.momentumThreshold) :
    (∀ m : Vector3, m ≠ Vector3.Zero →
      (cp.applyMomentumFriction m dt).length < m.length) ∧
    cp.applyMomentumFriction Vector3.Zero dt = Vector3.Zero ∧
    (∀ m : Vector3, ∃ n : ℕ,
      (fun v => cp.applyMomentumFriction v dt)^[n] m = Vector3.Zero) := by
  have hc0 : (0:ℝ) ≤ max 0 (1 - cp.momentumFriction * dt) := le_max_left 0 _
  have hc1 : max 0 (1 - cp.momentumFriction * dt) < 1 := by
    have : 0 < cp.momentumFriction * dt := mul_pos hf hdt
    apply max_lt (by norm_num)
    linarith
  refine ⟨?_, applyMomentumFriction_zero cp dt, ?_⟩
  · intro m hm
    have hlm : 0 < m.length := Vector3.length_pos_of_ne_zero hm
    rcases applyMomentumFriction_cases cp m dt with h | h
    · rw [h, Vector3.length_zero]
      exact hlm
    · rw [h, Vector3.length_scale,
        abs_of_nonneg hc0]
      exact mul_lt_of_lt_one_left hlm hc1
  · intro m
    by_cases hm : m = Vector3.Zero
    · exact ⟨0, by rw [Function.iterate_zero_apply, hm]⟩
    have hlm : 0 < m.length := Vector3.length_pos_of_ne_zero hm
    have key : ∀ k : ℕ,
        (fun v => cp.applyMomentumFriction v dt)^[k] m = Vector3.Zero ∨
        (fun v => cp.applyMomentumFriction v dt)^[k] m =
          m.scale ((max 0 (1 - cp.momentumFriction * dt)) ^ k) := by
      intro k
      induction k with
      | zero =>
          right
          rw [Function.iterate_zero_apply, pow_zero, Vector3.scale_one]
      | succ k ih =>
          rw [Function.iterate_succ_apply']
          rcases ih with h0 | hk
          · left
            rw [h0]
            exact applyMomentumFriction_zero cp dt
          · rw [hk]
            rcases applyMomentumFriction_cases cp
                (m.scale ((max 0 (1 - cp.momentumFriction * dt)) ^ k)) dt with hs | hs
            · exact Or.inl hs
            · right
              rw [hs, Vector3.scale_scale, ← pow_succ]
    obtain ⟨n, hn⟩ := exists_pow_lt_of_lt_one
      (div_pos hthr hlm) hc1
    have hnm : (max 0 (1 - cp.momentumFriction * dt)) ^ n * m.length <
        cp.momentumThreshold := (lt_div_iff hlm).mp hn
    rcases key n with h0 | hk
    · exact ⟨n, h0⟩
    · refine ⟨n + 1, ?_⟩
      rw [Function.iterate_succ_apply', hk]
      simp only [CollisionPhysics.applyMomentumFriction, Vector3.scale_scale]
      rw [if_pos]
      rw [Vector3.length_scale,
        abs_of_nonneg (mul_nonneg (pow_nonneg hc0 n) hc0)]
      calc (max 0 (1 - cp.momentumFriction * dt)) ^ n *
            max 0 (1 - cp.momentumFriction * dt) * m.length
          ≤ (max 0 (1 - cp.momentumFriction * dt)) ^ n * 1 * m.length := by
            apply mul_le_mul_of_nonneg_right _ (Vector3.length_nonneg m)
            exact mul_le_mul_of_nonneg_left (le_of_lt hc1) (pow_nonneg hc0 n)
        _ = (max 0 (1 - cp.momentumFriction * dt)) ^ n * m.length := by ring
        _ < cp.momentumThreshold := hnm

/-- Witness for C6 at the default configuration and dt = 1: the zero momentum
is a fixed point. -/
theorem c6_momentum_decay_to_zero_witness :
    CollisionPhysics.defaultConfig.applyMomentumFriction Vector3.Zero 1 =
      Vector3.Zero :=
  (c6_momentum_decay_to_zero CollisionPhysics.defaultConfig 1
    (by norm_num [CollisionPhysics.defaultConfig]) (by norm_num)
    (by norm_num [CollisionPhysics.defaultConfig])).2.1

/-- C9: `applyCollisionImpulse` adds the impulse to the momentum, zeroes the
speed, and leaves position, orientation, velocity, mass, steer angle and the
surface parameters untouched. -/
theorem c9_apply_collision_impulse (s : VehicleState) (impulse : Vector3) :
    (s.applyCollisionImpulse impulse).momentum = s.momentum.add impulse ∧
    (s.applyCollisionImpulse impulse).speed = 0 ∧
    (s.applyCollisionImpulse impulse).position = s.position ∧
    (s.applyCollisionImpulse impulse).rotationQuaternion = s.rotationQuaternion ∧
    (s.applyCollisionImpulse impulse).velocity = s.velocity ∧
    (s.applyCollisionImpulse impulse).mass = s.mass ∧
    (s.applyCollisionImpulse impulse).steerAngle = s.steerAngle ∧
    (s.applyCollisionImpulse impulse).surfaceType = s.surfaceType ∧
    (s.applyCollisionImpulse impulse).groundHeight = s.groundHeight ∧
    (s.applyCollisionImpulse impulse).planetCenter = s.planetCenter ∧
    (s.applyCollisionImpulse impulse).planetRadius = s.planetRadius ∧
    (s.applyCollisionImpulse impulse).heightOffset = s.heightOffset :=
  ⟨rfl, rfl, rfl, rfl, rfl, rfl, rfl, rfl, rfl, rfl, rfl, rfl⟩

/-- C7: the handbrake branch of `updateMovement` removes exactly `30·dt` from
the speed's magnitude when it exceeds `30·dt`, sets the speed to exactly 0
otherwise, and never flips the speed's sign. -/
theorem c7_handbrake_braking (s : VehicleState) (dt : ℝ)
    (hhb : s.inputHandbrake = true) (hdt : 0 ≤ dt) :
    (30 * dt < |s.speed| →
      |(s.updateMovement dt).speed| = |s.speed| - 30 * dt) ∧
    (|s.speed| ≤ 30 * dt → (s.updateMovement dt).speed = 0) ∧
    0 ≤ (s.updateMovement dt).speed * s.speed := by
  have hspeed : (s.updateMovement dt).speed =
      if |s.speed| ≤ 30 * dt then 0 else s.speed - Real.sign s.speed * (30 * dt) := by
    simp only [VehicleState.updateMovement, hhb, if_true]
  by_cases hle : |s.speed| ≤ 30 * dt
  · rw [hspeed, if_pos hle]
    refine ⟨fun hgt => absurd hle (not_le.mpr hgt), fun _ => rfl, by simp⟩
  · rw [hspeed, if_neg hle]
    have hgt : 30 * dt < |s.speed| := not_le.mp hle
    have hne : s.speed ≠ 0 := by
      intro h0
      rw [h0, abs_zero] at hgt
      linarith
    rcases lt_or_gt_of_ne hne with hneg | hpos
    · have hsign : Real.sign s.speed = -1 := Real.sign_of_neg hneg
      have habs : |s.speed| = -s.speed := abs_of_neg hneg
      have hgt2 : 30 * dt < -s.speed := habs ▸ hgt
      have hlt : s.speed + 30 * dt < 0 := by linarith
      refine ⟨fun _ => ?_, fun hc => absurd hc hle, ?_⟩
      · rw [hsign, show s.speed - (-1) * (30 * dt) = s.speed + 30 * dt by ring,
          abs_of_neg hlt, habs]
        ring
      · rw [hsign, show s.speed - (-1) * (30 * dt) = s.speed + 30 * dt by ring]
        exact le_of_lt (mul_pos_of_neg_of_neg hlt hneg)
    · have hsign : Real.sign s.speed = 1 := Real.sign_of_pos hpos
      have habs : |s.speed| = s.speed := abs_of_pos hpos
      have hgt2 : 30 * dt < s.speed := habs ▸ hgt
      have hlt : 0 < s.speed - 30 * dt := by linarith
      refine ⟨fun _ => ?_, fun hc => absurd hc hle, ?_⟩
      · rw [hsign, show s.speed - 1 * (30 * dt) = s.speed - 30 * dt by ring,
          abs_of_pos hlt, habs]
      · rw [hsign, show s.speed - 1 * (30 * dt) = s.speed - 30 * dt by ring]
        exact le_of_lt (mul_pos hlt hpos)

/-- Witness for C7 at the sample vehicle with speed 10, handbrake engaged,
dt = 1 (so the braking amount 30 reaches past zero): the speed becomes
exactly 0. -/
theorem c7_handbrake_braking_witness :
    (VehicleState.updateMovement 1
      { sampleState with speed := 10, inputHandbrake := true }).speed = 0 :=
  (c7_handbrake_braking { sampleState with speed := 10, inputHandbrake := true }
    1 rfl (by norm_num)).2.1
    (by rw [show |(({ sampleState with speed := 10, inputHandbrake := true } :
        VehicleState)).speed| = 10 from by norm_num [sampleState]]; norm_num)

lemma updatePositionGround_speed (dt : ℝ) (s : VehicleState) :
    (s.updatePositionGround dt).speed = s.speed := by
  simp only [VehicleState.updatePositionGround]
  split <;> rfl

lemma updatePositionPlanet_speed (dt : ℝ) (s : VehicleState) :
    (s.updatePositionPlanet dt).speed = s.speed := by
  simp only [VehicleState.updatePositionPlanet]
  split <;> rfl

lemma updatePosition_speed (dt : ℝ) (s : VehicleState) :
    (VehicleState.updatePosition dt s).speed = s.speed := by
  unfold VehicleState.updatePosition
  cases s.surfaceType
  · exact updatePositionPlanet_speed dt s
  · exact updatePositionGround_speed dt s

/-- Core of the speed invariant: one `updateMovement` step keeps the speed
inside `[-maxSpeed·0.5, maxSpeed]`, given a nonnegative time step and a
friction coefficient in (0, 1]. -/
lemma updateMovement_speed_mem (s : VehicleState) (dt : ℝ) (hdt : 0 ≤ dt)
    (hfr0 : 0 < s.friction) (hfr1 : s.friction ≤ 1)
    (hlo : -s.maxSpeed * 0.5 ≤ s.speed) (hhi : s.speed ≤ s.maxSpeed) :
    -s.maxSpeed * 0.5 ≤ (s.updateMovement dt).speed ∧
      (s.updateMovement dt).speed ≤ s.maxSpeed := by
  have hM : 0 ≤ s.maxSpeed := by linarith
  simp only [VehicleState.updateMovement]
  by_cases hhb : s.inputHandbrake = true
  · rw [if_pos hhb]
    by_cases hle : |s.speed| ≤ 30 * dt
    · rw [if_pos hle]
      constructor <;> linarith
    · rw [if_neg hle]
      have hgt : 30 * dt < |s.speed| := not_le.mp hle
      have hne : s.speed ≠ 0 := by
        intro h0
        rw [h0, abs_zero] at hgt
        linarith
      rcases lt_or_gt_of_ne hne with hneg | hpos
      · rw [Real.sign_of_neg hneg]
        have hgt2 : 30 * dt < -s.speed := (abs_of_neg hneg) ▸ hgt
        constructor <;> nlinarith
      · rw [Real.sign_of_pos hpos]
        have hgt2 : 30 * dt < s.speed := (abs_of_pos hpos) ▸ hgt
        constructor <;> nlinarith
  · rw [if_neg hhb]
    have hk0 : 0 < s.friction ^ dt := Real.rpow_pos_of_pos hfr0 dt
    have hk1 : s.friction ^ dt ≤ 1 := Real.rpow_le_one (le_of_lt hfr0) hfr1 hdt
    set c2 := max (-s.maxSpeed * 0.5)
      (min s.maxSpeed (s.speed + s.inputAccelerate * s.acceleration * dt)) with hc2
    have hc2lo : -s.maxSpeed * 0.5 ≤ c2 := le_max_left _ _
    have hc2hi : c2 ≤ s.maxSpeed := max_le (by linarith) (min_le_left _ _)
    have hp1 : 0 ≤ s.friction ^ dt * (c2 + s.maxSpeed * 0.5) :=
      mul_nonneg (le_of_lt hk0) (by linarith)
    have hp2 : 0 ≤ s.maxSpeed * (1 - s.friction ^ dt) :=
      mul_nonneg hM (by linarith)
    have hp3 : 0 ≤ (s.maxSpeed - c2) * (s.friction ^ dt) :=
      mul_nonneg (by linarith) (le_of_lt hk0)
    constructor <;> nlinarith

/-- C3 counterexample: `setVelocity` copies the velocity's magnitude into
`speed` without clamping, so a velocity of magnitude 10 on a vehicle with
maxSpeed 1 leaves `speed = 10`, outside `[-maxSpeed·0.5, maxSpeed]`. -/
theorem c3_speed_bound_counterexample :
    ¬ ((sampleState.setVelocity ⟨10, 0, 0⟩).speed ≤ sampleState.maxSpeed) := by
  have h1 : (sampleState.setVelocity ⟨10, 0, 0⟩).speed = (10:ℝ) := by
    show (Vector3.mk 10 0 0).length = (10:ℝ)
    exact Vector3.length_axis_x 10 (by norm_num)
  rw [h1]
  show ¬ ((10:ℝ) ≤ (1:ℝ))
  norm_num

/-- C3 (amended): starting from a speed in `[-maxSpeed·0.5, maxSpeed]`,
`update(dt)` with `0 ≤ dt`, friction in (0, 1], and inputs in [−1, 1],
`applyCollisionImpulse` with any impulse, `stopMovement`, and `setVelocity`
restricted to velocities of magnitude at most maxSpeed all leave the speed in
`[-maxSpeed·0.5, maxSpeed]`; an unrestricted `setVelocity` escapes the bound
(see the counterexample). -/
theorem c3_speed_bound_amended (s : VehicleState) (dt : ℝ) (v impulse : Vector3)
    (hlo : -s.maxSpeed * 0.5 ≤ s.speed) (hhi : s.speed ≤ s.maxSpeed)
    (hacc : |s.inputAccelerate| ≤ 1) (hsteer : |s.inputSteer| ≤ 1)
    (hdt : 0 ≤ dt) (hfr0 : 0 < s.friction) (hfr1 : s.friction ≤ 1)
    (hv : v.length ≤ s.maxSpeed) :
    (-s.maxSpeed * 0.5 ≤ (s.update dt).speed ∧ (s.update dt).speed ≤ s.maxSpeed) ∧
    (-s.maxSpeed * 0.5 ≤ (s.applyCollisionImpulse impulse).speed ∧
      (s.applyCollisionImpulse impulse).speed ≤ s.maxSpeed) ∧
    (-s.maxSpeed * 0.5 ≤ (s.setVelocity v).speed ∧
      (s.setVelocity v).speed ≤ s.maxSpeed) ∧
    (-s.maxSpeed * 0.5 ≤ s.stopMovement.speed ∧
      s.stopMovement.speed ≤ s.maxSpeed) := by
  have hM : 0 ≤ s.maxSpeed := by linarith
  refine ⟨?_, ?_, ?_, ?_⟩
  · have hup : (s.update dt).speed = (s.updateMovement dt).speed :=
      updatePosition_speed dt (s.updateMovement dt)
    rw [hup]
    exact updateMovement_speed_mem s dt hdt hfr0 hfr1 hlo hhi
  · show -s.maxSpeed * 0.5 ≤ (0:ℝ) ∧ (0:ℝ) ≤ s.maxSpeed
    constructor <;> linarith
  · show -s.maxSpeed * 0.5 ≤ v.length ∧ v.length ≤ s.maxSpeed
    have hvn : 0 ≤ v.length := Vector3.length_nonneg v
    constructor <;> linarith
  · show -s.maxSpeed * 0.5 ≤ (0:ℝ) ∧ (0:ℝ) ≤ s.maxSpeed
    constructor <;> linarith

/-- Witness for C3 (amended) at the sample vehicle, dt = 0, zero velocity and
zero impulse. -/
theorem c3_speed_bound_amended_witness :
    -sampleState.maxSpeed * 0.5 ≤ (sampleState.update 0).speed ∧
      (sampleState.update 0).speed ≤ sampleState.maxSpeed :=
  (c3_speed_bound_amended sampleState 0 Vector3.Zero Vector3.Zero
    (by norm_num [sampleState]) (by norm_num [sampleState])
    (by norm_num [sampleState]) (by norm_num [sampleState])
    (by norm_num) (by norm_num [sampleState]) (by norm_num [sampleState])
    (by rw [Vector3.length_zero]; norm_num [sampleState])).1

/-- The ground integrator's effect on the orientation, split on the early
return: below the 0.1 velocity threshold the orientation (and everything but
momentum and velocity) is untouched; otherwise the steering rotation is
pre-multiplied onto the current orientation. -/
lemma updatePositionGround_rotation_cases (dt : ℝ) (s : VehicleState) :
    (0.1 ≤ (s.frameVelocity dt).length →
      (s.updatePositionGround dt).rotationQuaternion =
        (Quaternion.RotationAxis Vector3.Up (s.steerAngle * dt)).multiply
          s.rotationQuaternion) ∧
    ((s.frameVelocity dt).length < 0.1 →
      (s.updatePositionGround dt).rotationQuaternion = s.rotationQuaternion ∧
      (s.updatePositionGround dt).velocity = Vector3.Zero) := by
  constructor
  · intro h
    simp only [VehicleState.updatePositionGround]
    rw [if_neg (not_lt.mpr h)]
  · intro h
    simp only [VehicleState.updatePositionGround]
    rw [if_pos h]
    exact ⟨rfl, rfl⟩

lemma update_eq_ground (dt : ℝ) (s : VehicleState)
    (hmode : s.surfaceType = SurfaceType.ground) :
    s.update dt = (s.updateMovement dt).updatePositionGround dt := by
  unfold VehicleState.update VehicleState.updatePosition
  have h1 : (s.updateMovement dt).surfaceType = SurfaceType.ground := hmode
  rw [h1]

lemma update_eq_planet (dt : ℝ) (s : VehicleState)
    (hmode : s.surfaceType = SurfaceType.planet) :
    s.update dt = (s.updateMovement dt).updatePositionPlanet dt := by
  unfold VehicleState.update VehicleState.updatePosition
  have h1 : (s.updateMovement dt).surfaceType = SurfaceType.planet := hmode
  rw [h1]

/-- C4 counterexample: a concrete ground-mode frame whose total velocity is
exactly zero (decayed momentum cancels the driving velocity) while the
steering angle is 0.5: the code's early return leaves the orientation
unchanged, so it does not equal the claimed incrementally rotated
orientation. -/
theorem c4_ground_steering_counterexample :
    ¬ ((c4State.update 0.05).rotationQuaternion =
      (Quaternion.RotationAxis Vector3.Up
        ((c4State.updateMovement 0.05).steerAngle * 0.05)).multiply
        c4State.rotationQuaternion) := by
  have hsg : Real.sign (2:ℝ) = 1 := Real.sign_of_pos (by norm_num)
  have habs2 : |(2:ℝ)| = 2 := abs_of_pos (by norm_num)
  have habs05 : |(0.5:ℝ)| = 0.5 := abs_of_pos (by norm_num)
  have hs1 : c4State.updateMovement 0.05 =
      { c4State with speed := 0.5, steerAngle := 0.5 } := by
    simp only [VehicleState.updateMovement, c4State, sampleState]
    norm_num [hsg, habs2, habs05, le_abs_self]
  have hmax : max (0:ℝ) (1 - 0.4 * 0.05) = 0.98 := by
    rw [max_eq_right] <;> norm_num
  have hmom : (c4State.updateMovement 0.05).frameMomentum 0.05 =
      ⟨0, 0, -500⟩ := by
    rw [hs1]
    show CollisionPhysics.defaultConfig.applyMomentumFriction
      ⟨0, 0, -(25000 / 49)⟩ 0.05 = ⟨0, 0, -500⟩
    simp only [CollisionPhysics.applyMomentumFriction, CollisionPhysics.defaultConfig]
    rw [show (Vector3.mk 0 0 (-(25000 / 49))).scale (max 0 (1 - 0.4 * 0.05)) =
        ⟨0, 0, -500⟩ from by
      rw [hmax]; simp only [Vector3.scale, Vector3.mk.injEq]; norm_num]
    rw [if_neg]
    rw [Vector3.length_axis_z_neg (-500) (by norm_num)]
    norm_num
  have hfw : Vector3.rotateByQuaternion ⟨0, 0, 1⟩ Quaternion.Identity =
      ⟨0, 0, 1⟩ := by
    simp only [Vector3.rotateByQuaternion, Quaternion.Identity]
    norm_num
  have hvel : (c4State.updateMovement 0.05).frameVelocity 0.05 = Vector3.Zero := by
    simp only [VehicleState.frameVelocity, hmom]
    rw [show (c4State.updateMovement 0.05).rotationQuaternion =
        Quaternion.Identity from by rw [hs1]; rfl]
    rw [show (c4State.updateMovement 0.05).speed = 0.5 from by rw [hs1]]
    rw [show (c4State.updateMovement 0.05).mass = 1000 from by rw [hs1]; rfl]
    rw [hfw]
    simp only [CollisionPhysics.momentumToVelocity]
    rw [if_neg (by norm_num : (1000:ℝ) ≠ 0)]
    simp only [Vector3.add, Vector3.scale, Vector3.Zero, Vector3.mk.injEq]
    norm_num
  have hvlen : ((c4State.updateMovement 0.05).frameVelocity 0.05).length < 0.1 := by
    rw [hvel, Vector3.length_zero]
    norm_num
  have hrot := (updatePositionGround_rotation_cases 0.05
    (c4State.updateMovement 0.05)).2 hvlen
  have hupd : (c4State.update 0.05).rotationQuaternion = Quaternion.Identity := by
    rw [update_eq_ground 0.05 c4State rfl, hrot.1, hs1]
    rfl
  have hsteer : (c4State.updateMovement 0.05).steerAngle = 0.5 := by
    rw [hs1]
  intro hcontra
  rw [hupd, hsteer,
    show c4State.rotationQuaternion = Quaternion.Identity from rfl] at hcontra
  have hq : Quaternion.RotationAxis Vector3.Up (0.5 * 0.05) =
      ⟨0, Real.sin (0.5 * 0.05 / 2), 0, Real.cos (0.5 * 0.05 / 2)⟩ := by
    simp only [Quaternion.RotationAxis, Vector3.normalize_up]
    simp only [Vector3.Up, Quaternion.mk.injEq]
    norm_num
  rw [hq] at hcontra
  have hmul : (Quaternion.mk 0 (Real.sin (0.5 * 0.05 / 2)) 0
      (Real.cos (0.5 * 0.05 / 2))).multiply Quaternion.Identity =
      ⟨0, Real.sin (0.5 * 0.05 / 2), 0, Real.cos (0.5 * 0.05 / 2)⟩ := by
    simp only [Quaternion.multiply, Quaternion.Identity]
    norm_num
  rw [hmul] at hcontra
  have hy : (0:ℝ) = Real.sin (0.5 * 0.05 / 2) := congrArg Quaternion.y hcontra
  have hpos : 0 < Real.sin (0.5 * 0.05 / 2) :=
    Real.sin_pos_of_pos_of_lt_pi (by norm_num)
      (by linarith [Real.pi_gt_three])
  rw [← hy] at hpos
  exact lt_irrefl 0 hpos

/-- C4 (amended): in ground mode, when the frame's combined velocity has
magnitude at least 0.1 the orientation is rotated incrementally about the
world up axis by steerAngle·dt pre-multiplied onto the current orientation;
when the magnitude is below 0.1 the velocity is snapped to zero and the frame
skips both translation and rotation, leaving the orientation unchanged. -/
theorem c4_ground_steering_amended (s : VehicleState) (dt : ℝ)
    (hmode : s.surfaceType = SurfaceType.ground) :
    (0.1 ≤ ((s.updateMovement dt).frameVelocity dt).length →
      (s.update dt).rotationQuaternion =
        (Quaternion.RotationAxis Vector3.Up
          ((s.updateMovement dt).steerAngle * dt)).multiply
          s.rotationQuaternion) ∧
    (((s.updateMovement dt).frameVelocity dt).length < 0.1 →
      (s.update dt).rotationQuaternion = s.rotationQuaternion ∧
      (s.update dt).velocity = Vector3.Zero) := by
  rw [update_eq_ground dt s hmode]
  exact updatePositionGround_rotation_cases dt (s.updateMovement dt)

/-- Witness for C4 (amended) at the sample ground vehicle with dt = 0. -/
theorem c4_ground_steering_amended_witness :
    (0.1 ≤ ((sampleState.updateMovement 0).frameVelocity 0).length →
      (sampleState.update 0).rotationQuaternion =
        (Quaternion.RotationAxis Vector3.Up
          ((sampleState.updateMovement 0).steerAngle * 0)).multiply
          sampleState.rotationQuaternion) ∧
    (((sampleState.updateMovement 0).frameVelocity 0).length < 0.1 →
      (sampleState.update 0).rotationQuaternion = sampleState.rotationQuaternion ∧
      (sampleState.update 0).velocity = Vector3.Zero) :=
  c4_ground_steering_amended sampleState 0 rfl

/-- The corrected position in the planet integrator stays within 1e-3 of the
target distance: the arc-length motion is a rotation of the center-relative
position, which preserves the distance, so under the invariant the re-snap
guard never fires. -/
lemma planet_position2_dist (c p axis : Vector3) (ang target : ℝ)
    (hinv : |Vector3.Distance p c - target| < 0.001) :
    |Vector3.Distance
      (if |Vector3.Distance
            (c.add ((p.subtract c).rotateByQuaternion
              (Quaternion.RotationAxis axis ang))) c - target| > 0.001
       then c.add ((((c.add ((p.subtract c).rotateByQuaternion
              (Quaternion.RotationAxis axis ang))).subtract c).normalize).scale target)
       else c.add ((p.subtract c).rotateByQuaternion
              (Quaternion.RotationAxis axis ang))) c - target| < 0.001 := by
  have hd1 : Vector3.Distance
      (c.add ((p.subtract c).rotateByQuaternion
        (Quaternion.RotationAxis axis ang))) c = Vector3.Distance p c := by
    unfold Vector3.Distance
    rw [Vector3.add_subtract_cancel, Vector3.rotate_rotationAxis_length]
  rw [if_neg (by rw [hd1]; exact not_lt.mpr (le_of_lt hinv))]
  rw [hd1]
  exact hinv

/-- One planet integration step preserves the ride-height invariant. -/
lemma updatePositionPlanet_planetInv (dt : ℝ) (s : VehicleState)
    (hinv : planetInv s) : planetInv (s.updatePositionPlanet dt) := by
  simp only [VehicleState.updatePositionPlanet]
  split
  · exact hinv
  · simp only [planetInv]
    exact planet_position2_dist s.planetCenter s.position _ _ _ hinv

lemma updatePositionPlanet_surface (dt : ℝ) (s : VehicleState) :
    (s.updatePositionPlanet dt).surfaceType = s.surfaceType := by
  simp only [VehicleState.updatePositionPlanet]
  split <;> rfl

lemma updatePositionPlanet_radius (dt : ℝ) (s : VehicleState) :
    (s.updatePositionPlanet dt).planetRadius = s.planetRadius := by
  simp only [VehicleState.updatePositionPlanet]
  split <;> rfl

/-- One full planet-mode `update` preserves the invariant, the surface type,
and the planet radius. -/
lemma update_planet_inv_step (dt : ℝ) (s : VehicleState)
    (hmode : s.surfaceType = SurfaceType.planet) (hinv : planetInv s) :
    planetInv (s.update dt) ∧
      (s.update dt).surfaceType = SurfaceType.planet ∧
      (s.update dt).planetRadius = s.planetRadius := by
  rw [update_eq_planet dt s hmode]
  refine ⟨updatePositionPlanet_planetInv dt (s.updateMovement dt) hinv, ?_, ?_⟩
  · rw [updatePositionPlanet_surface]
    exact hmode
  · rw [updatePositionPlanet_radius]
    rfl

/-- C1: a planet-mode vehicle whose distance to the planet center is within
1e-3 of planetRadius + heightOffset keeps that property across any finite
sequence of frames (arbitrary inputs, nonnegative dt): the arc-length motion
preserves the distance and the re-snap corrects any larger drift. -/
theorem c1_planet_distance_invariant (frames : List FrameInput)
    (s : VehicleState) (hmode : s.surfaceType = SurfaceType.planet)
    (hrad : 0 < s.planetRadius)
    (hdt : ∀ f ∈ frames, 0 ≤ f.deltaTime) (hinv : planetInv s) :
    planetInv (runFrames frames s) := by
  induction frames generalizing s with
  | nil => exact hinv
  | cons f fs ih =>
      have hstep := update_planet_inv_step f.deltaTime
        (s.setInput f.accelerate f.steer f.handbrake) hmode hinv
      have hradp : (applyFrame s f).planetRadius = s.planetRadius := hstep.2.2
      exact ih (applyFrame s f) hstep.2.1 (by rw [hradp]; exact hrad)
        (fun g hg => hdt g (List.mem_cons_of_mem f hg)) hstep.1

/-- Witness for C1: one idle frame on the sample planet vehicle at distance
exactly planetRadius + heightOffset = 1 from the center. -/
theorem c1_planet_distance_invariant_witness :
    planetInv (runFrames [⟨0, 0, false, 1⟩] samplePlanetState) :=
  c1_planet_distance_invariant [⟨0, 0, false, 1⟩] samplePlanetState rfl
    (by norm_num [samplePlanetState, sampleState])
    (by
      intro f hf
      simp only [List.mem_singleton] at hf
      rw [hf]
      norm_num)
    (by
      show |Vector3.Distance ⟨1, 0, 0⟩ ⟨0, 0, 0⟩ - (1 + 0)| < 0.001
      rw [show Vector3.Distance ⟨1, 0, 0⟩ ⟨0, 0, 0⟩ = (1:ℝ) from by
        show ((Vector3.mk 1 0 0).subtract ⟨0, 0, 0⟩).length = 1
        rw [show (Vector3.mk 1 0 0).subtract ⟨0, 0, 0⟩ = ⟨1, 0, 0⟩ from by
          simp only [Vector3.subtract, Vector3.mk.injEq]; norm_num]
        exact Vector3.length_axis_x 1 (by norm_num)]
      norm_num)

end OSD

